import Mathlib

/-!
Verification of the JSON adaptation layer (`psycopg/types/json.py`).

The embedding models the module's data and operations directly from the
source:
* the process-wide hook state (`_dumps`, `_loads`) becomes an explicit
  record `JsonGlobals` threaded through the operations;
* byte sequences handed to loaders become `Buffer`, which remembers
  whether the data is an owned bytes object or a memoryview, since the
  code branches on `isinstance(data, memoryview)`;
* fallible deserialization returns `Except JErr`;
* Python class inheritance becomes definitional reuse: a subclass that
  does not override a method gets the parent's function.
-/

namespace PsycopgJson

/-- Errors visible in the module: `DataError` raised by the jsonb binary
framing check, and whatever error a bound deserializer produces (the
module never inspects those, so one constructor suffices for them). -/
inductive JErr where
  | dataError (msg : String)
  | deserError (msg : String)
deriving DecidableEq, Repr

/-- The `Buffer` protocol value a loader receives: either an owned
contiguous bytes object or a memoryview over the same content.  Byte
values are naturals (Python indexing a bytes object yields ints). -/
inductive Buffer where
  | bytes (data : List Nat)
  | memoryview (data : List Nat)
deriving DecidableEq, Repr

/-- The byte content of a buffer, used to model truthiness (`if data`)
and indexing (`data[0]`). -/
def Buffer.toList : Buffer → List Nat
  | .bytes d => d
  | .memoryview d => d

/-- Models the Python slice `data[1:]`: slicing a bytes object yields a
bytes object, slicing a memoryview yields a memoryview. -/
def Buffer.drop1 : Buffer → Buffer
  | .bytes d => .bytes d.tail
  | .memoryview d => .memoryview d.tail

/-- Models `bytes(data)` applied when `isinstance(data, memoryview)`:
the normalization step both loaders perform before calling the bound
deserializer. -/
def Buffer.normalize : Buffer → Buffer
  | .memoryview d => .bytes d
  | d => d

/-- UTF-8 encoding of one code point, as byte values. -/
def utf8EncodeCharNat (c : Nat) : List Nat :=
  if c < 0x80 then [c]
  else if c < 0x800 then [0xC0 ||| (c >>> 6), 0x80 ||| (c &&& 0x3F)]
  else if c < 0x10000 then
    [0xE0 ||| (c >>> 12), 0x80 ||| ((c >>> 6) &&& 0x3F), 0x80 ||| (c &&& 0x3F)]
  else
    [0xF0 ||| (c >>> 18), 0x80 ||| ((c >>> 12) &&& 0x3F),
     0x80 ||| ((c >>> 6) &&& 0x3F), 0x80 ||| (c &&& 0x3F)]

/-- Models `str.encode("utf-8")`. -/
def encodeUtf8 (s : String) : List Nat :=
  s.data.flatMap (fun c => utf8EncodeCharNat c.toNat)

/-- The two wire formats (`pq.Format`). -/
inductive Format where
  | text
  | binary
deriving DecidableEq, Repr

/-- The module-level mutable state: the global serialization and
deserialization hooks `_dumps` and `_loads`.  A deserializer receives
the data object itself (so it may, like `json.loads`, reject a
memoryview); the loaders are responsible for normalizing first. -/
structure JsonGlobals (α : Type) where
  _dumps : α → String
  _loads : Buffer → Except JErr α

/-- Models `set_json_dumps`: replaces the global serializer. -/
def set_json_dumps {α : Type} (g : JsonGlobals α) (dumps : α → String) :
    JsonGlobals α :=
  { g with _dumps := dumps }

/-- Models `set_json_loads`: replaces the global deserializer. -/
def set_json_loads {α : Type} (g : JsonGlobals α)
    (loads : Buffer → Except JErr α) : JsonGlobals α :=
  { g with _loads := loads }

/-- Class `_JsonWrapper`: carries the wrapped payload `obj` and the serializer
bound at construction. -/
structure _JsonWrapper (α : Type) where
  obj : α
  _dumps : α → String

/-- Models `_JsonWrapper.__init__`: `self._dumps = dumps or _dumps` — a passed
function (always truthy) is kept, `None` falls back to the global
serializer current at construction time. -/
def _JsonWrapper.init {α : Type} (g : JsonGlobals α) (obj : α)
    (dumps : Option (α → String)) : _JsonWrapper α :=
  ⟨obj, dumps.getD g._dumps⟩

/-- Models `_JsonWrapper.dumps()`: applies the bound serializer to the payload. -/
def _JsonWrapper.dumps {α : Type} (w : _JsonWrapper α) : String :=
  w._dumps w.obj

/-- Models `_JsonDumper.dump`: UTF-8 bytes of `obj.dumps()`. -/
def _JsonDumper.dump {α : Type} (obj : _JsonWrapper α) : List Nat :=
  encodeUtf8 obj.dumps

/-- Class `JsonDumper` inherits `dump` from `_JsonDumper`. -/
def JsonDumper.dump {α : Type} : _JsonWrapper α → List Nat :=
  _JsonDumper.dump

/-- Class `JsonBinaryDumper` subclasses `JsonDumper` changing only `format`;
`dump` is inherited. -/
def JsonBinaryDumper.dump {α : Type} : _JsonWrapper α → List Nat :=
  JsonDumper.dump

/-- Class `JsonbDumper` inherits `dump` from `_JsonDumper`. -/
def JsonbDumper.dump {α : Type} : _JsonWrapper α → List Nat :=
  _JsonDumper.dump

/-- Models `JsonbBinaryDumper.dump`: `b"\x01" + obj.dumps().encode("utf-8")`. -/
def JsonbBinaryDumper.dump {α : Type} (obj : _JsonWrapper α) : List Nat :=
  1 :: encodeUtf8 obj.dumps

/-- Class `_JsonLoader` instance state: the deserializer bound in `__init__`. -/
structure _JsonLoader (α : Type) where
  _loads : Buffer → Except JErr α

/-- Models `_JsonLoader.__init__`: `self._loads = self.get_loads()`, and the
base `get_loads()` returns the global `_loads` current at that moment. -/
def _JsonLoader.init {α : Type} (g : JsonGlobals α) : _JsonLoader α :=
  ⟨g._loads⟩

/-- Models `_JsonLoader.load`: converts a memoryview to bytes (json.loads cannot
work on memoryview), then applies the bound deserializer. -/
def _JsonLoader.load {α : Type} (self : _JsonLoader α) (data : Buffer) :
    Except JErr α :=
  let data := match data with
    | Buffer.memoryview v => Buffer.bytes v
    | d => d
  self._loads data

/-- Class `JsonLoader` inherits `load` from `_JsonLoader`. -/
def JsonLoader.load {α : Type} : _JsonLoader α → Buffer → Except JErr α :=
  _JsonLoader.load

/-- Class `JsonbLoader` inherits `load` from `_JsonLoader`. -/
def JsonbLoader.load {α : Type} : _JsonLoader α → Buffer → Except JErr α :=
  _JsonLoader.load

/-- Class `JsonBinaryLoader` inherits `load` from `_JsonLoader`. -/
def JsonBinaryLoader.load {α : Type} : _JsonLoader α → Buffer → Except JErr α :=
  _JsonLoader.load

/-- Models `JsonbBinaryLoader.load`: `if data and data[0] != 1` raises
`DataError("unknown jsonb binary format: \x7bdata[0]\x7d")` — note the
message is that literal string, the f-string prefix is missing in the
source — then drops the first byte, normalizes a memoryview and applies
the bound deserializer. -/
def JsonbBinaryLoader.load {α : Type} (self : _JsonLoader α) (data : Buffer) :
    Except JErr α :=
  if data.toList ≠ [] ∧ data.toList.headD 0 ≠ 1 then
    Except.error (JErr.dataError "unknown jsonb binary format: \x7bdata[0]\x7d")
  else
    let data := data.drop1
    let data := match data with
      | Buffer.memoryview v => Buffer.bytes v
      | d => d
    self._loads data

/-- The eight codec classes the module registers. -/
inductive CodecClass where
  | jsonDumperC
  | jsonBinaryDumperC
  | jsonbDumperC
  | jsonbBinaryDumperC
  | jsonLoaderC
  | jsonbLoaderC
  | jsonBinaryLoaderC
  | jsonbBinaryLoaderC
deriving DecidableEq, Repr

/-- Registration targets: dumpers are registered against the wrapper
classes `Json` and `Jsonb`, loaders against the type names `"json"` and
`"jsonb"`. -/
inductive TypeKey where
  | clsJson
  | clsJsonb
  | tyJson
  | tyJsonb
deriving DecidableEq, Repr

/-- A registry key: the target together with the registering class's
wire format. -/
structure RegKey where
  key : TypeKey
  fmt : Format
deriving DecidableEq, Repr

/-- A single adaptation-context scope: the ordered key-to-class mapping. -/
abbrev Registry := List (RegKey × CodecClass)

/-- Modelled from the spec: the `register` classmethod of the codec base
classes (implemented in the adaptation module, outside this file's
source): it associates a codec class with a key in the given context and
"overwrites any prior registration for the exact same key in that exact
scope (last registration wins)" — dict-update semantics on a single
scope: replace the first matching key in place, else append. -/
def register (k : RegKey) (c : CodecClass) : Registry → Registry
  | [] => [(k, c)]
  | (k', c') :: rest =>
      if k' = k then (k, c) :: rest else (k', c') :: register k c rest

/-- Models `register_default_globals`: the eight registrations performed
in source order. -/
def register_default_globals (ctx : Registry) : Registry :=
  let ctx := register ⟨TypeKey.clsJson, Format.binary⟩ CodecClass.jsonBinaryDumperC ctx
  let ctx := register ⟨TypeKey.clsJson, Format.text⟩ CodecClass.jsonDumperC ctx
  let ctx := register ⟨TypeKey.clsJsonb, Format.binary⟩ CodecClass.jsonbBinaryDumperC ctx
  let ctx := register ⟨TypeKey.clsJsonb, Format.text⟩ CodecClass.jsonbDumperC ctx
  let ctx := register ⟨TypeKey.tyJson, Format.text⟩ CodecClass.jsonLoaderC ctx
  let ctx := register ⟨TypeKey.tyJsonb, Format.text⟩ CodecClass.jsonbLoaderC ctx
  let ctx := register ⟨TypeKey.tyJson, Format.binary⟩ CodecClass.jsonBinaryLoaderC ctx
  let ctx := register ⟨TypeKey.tyJsonb, Format.binary⟩ CodecClass.jsonbBinaryLoaderC ctx
  ctx

/-- Serializer used to instantiate round-trip hypotheses concretely. -/
def dumpsW : Unit → String := fun _ => "0"

/-- Deserializer matching `dumpsW`: accepts exactly the bytes of `"0"`. -/
def loadsW : Buffer → Except JErr Unit := fun b =>
  if b = Buffer.bytes (encodeUtf8 "0") then Except.ok ()
  else Except.error (JErr.deserError "invalid json")

/-- C1: on non-empty input whose first byte is not `0x01`,
`JsonbBinaryLoader.load` fails with a `DataError` whose message is the
constant literal string `"unknown jsonb binary format: \x7bdata[0]\x7d"`
(the source lacks the f-string prefix, so the offending byte value is
not reported), and the result does not depend on the bound deserializer,
which is therefore never invoked. -/
theorem jsonbBinaryLoader_wrong_first_byte {α : Type} (self : _JsonLoader α)
    (b : Nat) (rest : List Nat) (h : b ≠ 1) :
    JsonbBinaryLoader.load self (Buffer.bytes (b :: rest)) =
      Except.error
        (JErr.dataError "unknown jsonb binary format: \x7bdata[0]\x7d") := by
  simp [JsonbBinaryLoader.load, Buffer.toList, h]

/-- Witness for C1 at the failing input `b"\x02"`: the loader fails with
the literal, byte-independent message. -/
theorem jsonbBinaryLoader_wrong_first_byte_witness :
    JsonbBinaryLoader.load
        (⟨fun _ => Except.error (JErr.deserError "unused")⟩ : _JsonLoader Unit)
        (Buffer.bytes [2]) =
      Except.error
        (JErr.dataError "unknown jsonb binary format: \x7bdata[0]\x7d") :=
  jsonbBinaryLoader_wrong_first_byte _ 2 [] (by decide)

/-- C2 counterexample: a wrapper built without an explicit serializer
while the global serializer returns `"old"`, followed by
`set_json_dumps` installing a serializer returning `"new"`, still dumps
`"old"` — not the new global serializer applied to the payload. -/
theorem wrapper_not_lazy_cex :
    (_JsonWrapper.init
        (⟨fun _ => "old", fun _ => Except.error (JErr.deserError "e")⟩ :
          JsonGlobals Nat) 0 none).dumps ≠
      (set_json_dumps
        (⟨fun _ => "old", fun _ => Except.error (JErr.deserError "e")⟩ :
          JsonGlobals Nat) (fun _ => "new"))._dumps 0 := by
  decide

/-- C2 amended: the serializer of a wrapper built without an explicit
function is resolved eagerly at construction time — `dumps()` applies
the global serializer captured when the wrapper was created, so a
`set_json_dumps` call made after construction does not affect it, while
a wrapper constructed after `set_json_dumps(custom)` uses `custom`. -/
theorem wrapper_serializer_bound_at_construction {α : Type}
    (g : JsonGlobals α) (custom : α → String) (obj : α) :
    (_JsonWrapper.init g obj none).dumps = g._dumps obj ∧
      (_JsonWrapper.init (set_json_dumps g custom) obj none).dumps =
        custom obj :=
  ⟨rfl, rfl⟩

/-- C3: for every payload on which the bound serializer/deserializer
pair round-trips (the meaning of "JSON-serializable" for the default
`json.dumps`/`json.loads`), each of the four matching dumper/loader
pairs satisfies `load (dump (wrap payload)) = ok payload`. -/
theorem roundtrip_all_pairs {α : Type} (dumpsF : α → String)
    (loadsF : Buffer → Except JErr α)
    (hround : ∀ p : α,
      loadsF (Buffer.bytes (encodeUtf8 (dumpsF p))) = Except.ok p)
    (p : α) :
    JsonLoader.load (_JsonLoader.init ⟨dumpsF, loadsF⟩)
        (Buffer.bytes (JsonDumper.dump
          (_JsonWrapper.init ⟨dumpsF, loadsF⟩ p none))) = Except.ok p ∧
      JsonBinaryLoader.load (_JsonLoader.init ⟨dumpsF, loadsF⟩)
        (Buffer.bytes (JsonBinaryDumper.dump
          (_JsonWrapper.init ⟨dumpsF, loadsF⟩ p none))) = Except.ok p ∧
      JsonbLoader.load (_JsonLoader.init ⟨dumpsF, loadsF⟩)
        (Buffer.bytes (JsonbDumper.dump
          (_JsonWrapper.init ⟨dumpsF, loadsF⟩ p none))) = Except.ok p ∧
      JsonbBinaryLoader.load (_JsonLoader.init ⟨dumpsF, loadsF⟩)
        (Buffer.bytes (JsonbBinaryDumper.dump
          (_JsonWrapper.init ⟨dumpsF, loadsF⟩ p none))) = Except.ok p := by
  refine ⟨hround p, hround p, hround p, ?_⟩
  simp [JsonbBinaryLoader.load, JsonbBinaryDumper.dump, Buffer.toList,
    Buffer.drop1, _JsonWrapper.init, _JsonWrapper.dumps, _JsonLoader.init]
  exact hround p

/-- Witness for C3: the round trip at the concrete pair
`dumpsW`/`loadsW` and payload `()`. -/
theorem roundtrip_all_pairs_witness :
    JsonLoader.load (_JsonLoader.init ⟨dumpsW, loadsW⟩)
        (Buffer.bytes (JsonDumper.dump
          (_JsonWrapper.init ⟨dumpsW, loadsW⟩ () none))) = Except.ok () ∧
      JsonBinaryLoader.load (_JsonLoader.init ⟨dumpsW, loadsW⟩)
        (Buffer.bytes (JsonBinaryDumper.dump
          (_JsonWrapper.init ⟨dumpsW, loadsW⟩ () none))) = Except.ok () ∧
      JsonbLoader.load (_JsonLoader.init ⟨dumpsW, loadsW⟩)
        (Buffer.bytes (JsonbDumper.dump
          (_JsonWrapper.init ⟨dumpsW, loadsW⟩ () none))) = Except.ok () ∧
      JsonbBinaryLoader.load (_JsonLoader.init ⟨dumpsW, loadsW⟩)
        (Buffer.bytes (JsonbBinaryDumper.dump
          (_JsonWrapper.init ⟨dumpsW, loadsW⟩ () none))) = Except.ok () :=
  roundtrip_all_pairs dumpsW loadsW (fun _ => by rfl) ()

/-- C4: `JsonbBinaryDumper.dump` is exactly the version byte `0x01`
followed by the UTF-8 bytes of the wrapper's serialized text; the output
starts with `0x01` and is never empty. -/
theorem jsonbBinaryDumper_framing {α : Type} (w : _JsonWrapper α) :
    JsonbBinaryDumper.dump w = 1 :: encodeUtf8 w.dumps ∧
      (JsonbBinaryDumper.dump w).head? = some 1 ∧
      JsonbBinaryDumper.dump w ≠ [] :=
  ⟨rfl, rfl, by simp [JsonbBinaryDumper.dump]⟩

/-- C5: the plain-JSON binary variant is byte-identical to the text
variant: `JsonBinaryDumper.dump` agrees with `JsonDumper.dump` and emits
no version byte, and `JsonBinaryLoader.load` agrees with
`JsonLoader.load` and applies the deserializer to the whole input
without any framing check. -/
theorem json_binary_equals_text {α : Type} (w : _JsonWrapper α)
    (L : _JsonLoader α) (d : Buffer) (data : List Nat) :
    JsonBinaryDumper.dump w = JsonDumper.dump w ∧
      JsonBinaryDumper.dump w = encodeUtf8 w.dumps ∧
      JsonBinaryLoader.load L d = JsonLoader.load L d ∧
      JsonBinaryLoader.load L (Buffer.bytes data) =
        L._loads (Buffer.bytes data) :=
  ⟨rfl, rfl, rfl, rfl⟩

/-- C6: a loader binds its deserializer once, at construction: an
instance built from globals `g` uses `g._loads` forever, while an
instance built after `set_json_loads g f` uses `f`. -/
theorem loader_binds_at_construction {α : Type} (g : JsonGlobals α)
    (f : Buffer → Except JErr α) (d : Buffer) :
    (_JsonLoader.init g)._loads = g._loads ∧
      (_JsonLoader.init g).load d = g._loads d.normalize ∧
      (_JsonLoader.init (set_json_loads g f))._loads = f ∧
      (_JsonLoader.init (set_json_loads g f)).load d = f d.normalize := by
  cases d <;>
    exact ⟨rfl, rfl, rfl, rfl⟩

/-- C7: a wrapper constructed with an explicit serializer keeps it:
`dumps()` returns that function applied to the payload, and the result
is unchanged by any `set_json_dumps` mutation of the globals, whether
the wrapper was constructed before or after it. -/
theorem wrapper_explicit_serializer_pinned {α : Type} (g : JsonGlobals α)
    (f : α → String) (custom : α → String) (obj : α) :
    (_JsonWrapper.init g obj (some f)).dumps = f obj ∧
      (_JsonWrapper.init (set_json_dumps g custom) obj (some f)).dumps =
        (_JsonWrapper.init g obj (some f)).dumps :=
  ⟨rfl, rfl⟩

/-- C8: every loader normalizes a memoryview before deserializing, so
`load` on a memoryview over some content equals `load` on the contiguous
bytes of the same content, for the plain text loader, both plain binary
loaders and the jsonb binary loader. -/
theorem loader_view_normalization {α : Type} (L : _JsonLoader α)
    (c : List Nat) :
    _JsonLoader.load L (Buffer.memoryview c) =
        _JsonLoader.load L (Buffer.bytes c) ∧
      JsonLoader.load L (Buffer.memoryview c) =
        JsonLoader.load L (Buffer.bytes c) ∧
      JsonBinaryLoader.load L (Buffer.memoryview c) =
        JsonBinaryLoader.load L (Buffer.bytes c) ∧
      JsonbBinaryLoader.load L (Buffer.memoryview c) =
        JsonbBinaryLoader.load L (Buffer.bytes c) :=
  ⟨rfl, rfl, rfl, rfl⟩

/-- C9: `register_default_globals` is idempotent on the empty context:
running the eight registrations a second time re-registers the same
class under the same key, leaving the registry unchanged. -/
theorem register_default_globals_idempotent :
    register_default_globals (register_default_globals ([] : Registry)) =
      register_default_globals ([] : Registry) := by
  decide

/-- C10: on completely empty input the jsonb binary framing check is
skipped and the (empty) rest of the data is handed to the bound
deserializer, whose result — in particular, whatever error it raises —
is returned as is. -/
theorem jsonbBinaryLoader_empty_input {α : Type} (self : _JsonLoader α) :
    JsonbBinaryLoader.load self (Buffer.bytes []) =
        self._loads (Buffer.bytes []) ∧
      JsonbBinaryLoader.load self (Buffer.memoryview []) =
        self._loads (Buffer.bytes []) :=
  ⟨rfl, rfl⟩

end PsycopgJson
